import Mathlib

/-!
Shallow embedding of the kernel-communication engine of
`rplugin/python3/magma/runtime.py` (class `JupyterRuntime`), together with
the parts of its data model that the engine manipulates.

Modelling conventions:
* Python `Optional[T]` becomes `Option T`; Python string truthiness
  (`if self.waiting_for_magic`) is modelled explicitly (`pyTruthy`).
* The kernel process, channels, clipboard (`pyperclip`) and editor logging
  (`nvim.out_write`) are external effects; the embedding records the
  decisions the code makes about them (kernel spawned? channels started?
  callback invoked with which payload?) instead of performing them.
* Exceptions (`assert`, `raise ValueError`) become `Except PyError`.
* Magic-command callbacks are identified by a `Nat` id; an invocation is
  recorded as the pair (callback id, Python value passed to it).
-/

namespace Magma

/-- `RuntimeState` enum from runtime.py (STARTING = 0, IDLE = 1, RUNNING = 2). -/
inductive RuntimeState where
  | STARTING
  | IDLE
  | RUNNING
deriving DecidableEq, Repr

/-- The numeric `.value` of a `RuntimeState` member, as in the Python `Enum`. -/
def RuntimeState.value : RuntimeState → Nat
  | .STARTING => 0
  | .IDLE => 1
  | .RUNNING => 2

/-- Modelled from the spec: `OutputStatus` lives in magma/outputchunks.py, which
is not under src/; runtime.py uses exactly the members HOLD, RUNNING, DONE. -/
inductive OutputStatus where
  | HOLD
  | RUNNING
  | DONE
deriving DecidableEq, Repr

/-- Modelled from the spec: the OutputChunk discriminated union of
magma/outputchunks.py, which is not under src/. runtime.py itself constructs
`TextOutputChunk`, `ErrorOutputChunk` and `MimetypesOutputChunk`; the codec
result of `to_outputchunk` (file-backed/binary payloads) is the fourth
variant, carrying the data/metadata bundle it was decoded from (the temporary
file path is abstracted away). -/
inductive OutputChunk where
  | TextOutputChunk (text : String)
  | ErrorOutputChunk (name value : String) (traceback : List String)
  | MimetypesOutputChunk (keys : List String)
  | FileBackedOutputChunk (data : List (String × String))
      (metadata : List (String × String))
deriving DecidableEq, Repr

/-- Modelled from the spec: `to_outputchunk` of magma/outputchunks.py is not
under src/. Per the Output Chunk Codec contract, a text/plain-only bundle
decodes to a `Text` chunk and any other bundle to a file-backed chunk
referencing the payload and metadata (temporary-file allocation abstracted). -/
def to_outputchunk (data : List (String × String))
    (metadata : List (String × String)) : OutputChunk :=
  match data with
  | [("text/plain", s)] => .TextOutputChunk s
  | _ => .FileBackedOutputChunk data metadata

/-- Modelled from the spec: the Result Document (`Output` of
magma/outputchunks.py, not under src/). Field names follow the attribute
accesses in runtime.py: `execution_count`, `status`, `success`, `chunks`,
`_should_clear` (the deferred-clear flag). -/
structure Output where
  execution_count : Option Int
  status : OutputStatus
  success : Bool
  chunks : List OutputChunk
  _should_clear : Bool
deriving DecidableEq, Repr

/-- A Python value, as far as the engine passes values to a magic callback:
the `content` dict of a stream message is a string-valued dict. -/
inductive PyVal where
  | str (s : String)
  | int (n : Int)
  | strDict (entries : List (String × String))
deriving DecidableEq, Repr

/-- Exceptions runtime.py can raise while dispatching a message:
`assert` failures and the `raise ValueError(...)` for a bad status. -/
inductive PyError where
  | assertionError
  | valueError (msg : String)
deriving DecidableEq, Repr

/-- The mutable fields of a `JupyterRuntime` instance that the engine reads
or writes (kernel handles, nvim handle and options object are external;
of the options only `show_mimetype_debug` influences document contents —
`copy_output` only drives the clipboard side effect, which is not recorded). -/
structure MagmaState where
  state : RuntimeState
  kernel_name : String
  magic_execution_number : Option Int
  waiting_for_magic : Option String
  magic_execution_callback : Option Nat
  external_kernel : Bool
  allocated_files : List String
  show_mimetype_debug : Bool
deriving DecidableEq, Repr

/-- Python truthiness of an `Optional[str]`: `None` and `""` are falsy. -/
def pyTruthy : Option String → Bool
  | none => false
  | some s => s ≠ ""

/-- `sub` occurs as a contiguous run inside `s` (helper for `pyContains`). -/
def listContainsSub (sub : List Char) : List Char → Bool
  | [] => sub.isEmpty
  | c :: rest => sub.isPrefixOf (c :: rest) || listContainsSub sub rest

/-- The Python substring test `sub in s` on strings. -/
def pyContains (sub s : String) : Bool :=
  listContainsSub sub.toList s.toList

/-- An iopub message after `tick` has checked that `msg_type` and `content`
are present, keyed and typed as in the `_tick_one` dispatch and §6 of the
message table. `unknown` covers every other `msg_type` string. -/
inductive Message where
  | execute_input (code : String) (execution_count : Int)
  | status (execution_state : String)
  | execute_reply
  | execute_result (data : List (String × String))
      (metadata : List (String × String))
  | error (ename evalue : String) (traceback : List String)
  | stream (name text : String)
  | display_data (data : List (String × String))
      (metadata : List (String × String))
  | update_display_data
  | clear_output (wait : Bool)
  | unknown (msg_type : String)
deriving DecidableEq, Repr

/-- The `content` dict of a stream message, as passed to a magic callback
(`fn(content)` in runtime.py). -/
def streamContent (name text : String) : PyVal :=
  .strDict [("name", name), ("text", text)]

/-- Result of `JupyterRuntime.__init__(kernel_name, ...)`: the initial
instance state plus which external actions were taken. -/
structure InitResult where
  st : MagmaState
  spawned_kernel : Bool
  started_channels : Bool
  loaded_connection_file : Bool
deriving DecidableEq, Repr

/-- `JupyterRuntime.__init__`. The branch is chosen by the Python test
`".json" not in kernel_name`. Note that BOTH branches execute
`self.external_kernel = True` (runtime.py lines 56 and 74). Parsing of the
connection JSON and the kernel handles are external effects, recorded as
booleans. -/
def JupyterRuntime.init (kernel_name : String) (show_mimetype_debug : Bool) :
    InitResult :=
  let st0 : MagmaState :=
    { state := .STARTING
      kernel_name := kernel_name
      magic_execution_number := none
      waiting_for_magic := none
      magic_execution_callback := none
      external_kernel := true
      allocated_files := []
      show_mimetype_debug := show_mimetype_debug }
  if !(pyContains ".json" kernel_name) then
    { st := { st0 with external_kernel := true }
      spawned_kernel := true
      started_channels := true
      loaded_connection_file := false }
  else
    { st := { st0 with external_kernel := true }
      spawned_kernel := false
      started_channels := false
      loaded_connection_file := true }

/-- `JupyterRuntime.is_ready`: `self.state.value > RuntimeState.STARTING.value`. -/
def is_ready (st : MagmaState) : Bool :=
  decide (st.state.value > RuntimeState.STARTING.value)

/-- `JupyterRuntime.run_magic(code, callback)`. Returns the new instance
state and whether `kernel_client.execute(code)` was reached. The guard is
the Python truthiness test
`if self.waiting_for_magic or self.magic_execution_number is not None`. -/
def run_magic (st : MagmaState) (code : String) (callback : Nat) :
    MagmaState × Bool :=
  if pyTruthy st.waiting_for_magic || st.magic_execution_number.isSome then
    (st, false)
  else
    ({ st with
        magic_execution_number := none
        waiting_for_magic := some code
        magic_execution_callback := some callback }, true)

/-- `JupyterRuntime.deinit`: for each allocated path, remove it if it still
exists; then shut the kernel down only when `external_kernel is False`.
The filesystem is the list of currently existing paths; the returned
boolean records whether `kernel_client.shutdown()` was called. -/
def deinit (st : MagmaState) (fs : List String) : List String × Bool :=
  let fs1 := st.allocated_files.foldl
    (fun acc path => if acc.contains path
      then acc.filter (fun q => q ≠ path) else acc) fs
  (fs1, st.external_kernel = false)

/-- Result of dispatching one message (`_tick_one`): updated instance state,
updated document, the returned progress boolean, and the magic-callback
invocations performed (in order). -/
structure TickOneResult where
  st : MagmaState
  out : Output
  did : Bool
  calls : List (Nat × PyVal)
deriving DecidableEq, Repr

/-- The deferred-clear check at the top of `_tick_one`: if `_should_clear`
is set, empty `chunks` and reset the flag, before any case logic. -/
def applyClear (out : Output) : Output :=
  if out._should_clear then { out with chunks := [], _should_clear := false }
  else out

/-- The chunks `_append_chunk` adds for a data/metadata bundle: a
`MimetypesOutputChunk` of the dict keys first when `show_mimetype_debug`
is on, then the decoded chunk. -/
def appendedChunks (st : MagmaState) (data : List (String × String))
    (metadata : List (String × String)) : List OutputChunk :=
  (if st.show_mimetype_debug
    then [OutputChunk.MimetypesOutputChunk (data.map Prod.fst)] else [])
  ++ [to_outputchunk data metadata]

/-- The case dispatch of `_tick_one` (everything after the deferred-clear
check). Clipboard copies (`copy_on_demand`) and `nvim.out_write` logging are
external side effects with no influence on the recorded state. In the
`execute_input` case the Python code runs `assert output.status != DONE`
and then an if/elif/else whose `raise ValueError` arm is unreachable for
the three-valued status enum. -/
def tickCase (st : MagmaState) (output : Output) :
    Message → Except PyError TickOneResult
  | .execute_input code execution_count =>
    if st.waiting_for_magic = some code ∧ st.magic_execution_number = none then
      .ok ⟨{ st with
              magic_execution_number := some execution_count
              waiting_for_magic := none },
            output, false, []⟩
    else
      let output := { output with execution_count := some execution_count }
      if st.external_kernel = false then
        match output.status with
        | .DONE => .error .assertionError
        | .HOLD => .ok ⟨st, { output with status := .RUNNING }, true, []⟩
        | .RUNNING => .ok ⟨st, { output with status := .DONE }, true, []⟩
      else
        .ok ⟨st, output, true, []⟩
  | .status execution_state =>
    if execution_state = "starting" then .error .assertionError
    else if execution_state = "idle" then
      .ok ⟨{ st with state := .IDLE }, { output with status := .DONE },
        true, []⟩
    else if execution_state = "busy" then
      .ok ⟨{ st with state := .RUNNING }, output, true, []⟩
    else
      .ok ⟨st, output, false, []⟩
  | .execute_reply => .ok ⟨st, output, false, []⟩
  | .execute_result data metadata =>
    .ok ⟨st, { output with chunks := output.chunks ++ appendedChunks st data metadata },
      true, []⟩
  | .error ename evalue traceback =>
    .ok ⟨st,
      { output with
          chunks := output.chunks ++ [.ErrorOutputChunk ename evalue traceback]
          success := false },
      true, []⟩
  | .stream name text =>
    if st.magic_execution_number.isSome ∧ name = "stdout" then
      .ok ⟨{ st with
              magic_execution_number := none
              magic_execution_callback := none },
        output, false,
        match st.magic_execution_callback with
        | some f => [(f, streamContent name text)]
        | none => []⟩
    else
      .ok ⟨st, { output with chunks := output.chunks ++ [.TextOutputChunk text] },
        true, []⟩
  | .display_data data metadata =>
    .ok ⟨st, { output with chunks := output.chunks ++ appendedChunks st data metadata },
      true, []⟩
  | .update_display_data => .ok ⟨st, output, false, []⟩
  | .clear_output wait =>
    if wait then .ok ⟨st, { output with _should_clear := true }, true, []⟩
    else .ok ⟨st, { output with chunks := [] }, true, []⟩
  | .unknown _ => .ok ⟨st, output, false, []⟩

/-- `JupyterRuntime._tick_one`: the deferred-clear check, then the case
dispatch on the message type. -/
def _tick_one (st : MagmaState) (output : Output) (msg : Message) :
    Except PyError TickOneResult :=
  tickCase st (applyClear output) msg

/-- Result of the drain loop of `tick`: final instance state and document,
accumulated progress boolean, callback invocations, and the messages still
queued when the loop stopped. -/
structure DrainResult where
  st : MagmaState
  out : Output
  did : Bool
  calls : List (Nat × PyVal)
  remaining : List Message
deriving DecidableEq, Repr

/-- The `while True` drain loop of `tick`: pop each queued message in
delivery order, dispatch it, accumulate `did_stuff`, and `break` as soon as
`output.status == DONE` (or the queue raises `Empty`). Exceptions from
`_tick_one` propagate. -/
def tickDrain (st : MagmaState) (output : Output) :
    List Message → Except PyError DrainResult
  | [] => .ok ⟨st, output, false, [], []⟩
  | m :: rest =>
    match _tick_one st output m with
    | .error e => .error e
    | .ok r =>
      if r.out.status = .DONE then
        .ok ⟨r.st, r.out, r.did, r.calls, rest⟩
      else
        match tickDrain r.st r.out rest with
        | .error e => .error e
        | .ok d => .ok ⟨d.st, d.out, r.did || d.did, r.calls ++ d.calls,
            d.remaining⟩

/-- Outcome of the zero-wait `kernel_client.wait_for_ready(timeout=0)` call:
it either succeeds or raises `RuntimeError`. -/
inductive ReadyCheck where
  | succeeds
  | failsRuntimeError
deriving DecidableEq, Repr

/-- Result of a full `tick` call. -/
structure TickResult where
  st : MagmaState
  output : Option Output
  did : Bool
  calls : List (Nat × PyVal)
  remaining : List Message
deriving DecidableEq, Repr

/-- `JupyterRuntime.tick(output)`: readiness check first (on `RuntimeError`
return `False` immediately), then, when a document is present, the drain
loop over the currently queued messages. -/
def tick (st : MagmaState) (ready : ReadyCheck) (output : Option Output)
    (queue : List Message) : Except PyError TickResult :=
  if !(is_ready st) then
    match ready with
    | .failsRuntimeError => .ok ⟨st, output, false, [], queue⟩
    | .succeeds =>
      let st1 := { st with state := RuntimeState.IDLE }
      match output with
      | none => .ok ⟨st1, none, true, [], queue⟩
      | some out =>
        match tickDrain st1 out queue with
        | .error e => .error e
        | .ok d => .ok ⟨d.st, some d.out, true || d.did, d.calls, d.remaining⟩
  else
    match output with
    | none => .ok ⟨st, none, false, [], queue⟩
    | some out =>
      match tickDrain st out queue with
      | .error e => .error e
      | .ok d => .ok ⟨d.st, some d.out, false || d.did, d.calls, d.remaining⟩

/-- The chunks a single dispatched message appends to the document (after
the deferred-clear check): the per-case appends of `tickCase`, read off the
source. Messages absorbed by the magic channel append nothing. -/
def chunksDelta (st : MagmaState) : Message → List OutputChunk
  | .execute_result data metadata => appendedChunks st data metadata
  | .error ename evalue traceback =>
    [.ErrorOutputChunk ename evalue traceback]
  | .stream name text =>
    if st.magic_execution_number.isSome ∧ name = "stdout" then []
    else [.TextOutputChunk text]
  | .display_data data metadata => appendedChunks st data metadata
  | _ => []

/-- Drain loop following the words of the spec (for the refinement claim about
`tick`): dispatch queued messages in delivery order, but stop BEFORE taking
the next message once the document has reached DONE, leaving the rest
queued for a later call. -/
def drainSpec (st : MagmaState) (output : Output) :
    List Message → Except PyError (MagmaState × Output × List Message)
  | [] => .ok (st, output, [])
  | m :: rest =>
    if output.status = .DONE then .ok (st, output, m :: rest)
    else
      match _tick_one st output m with
      | .error e => .error e
      | .ok r => drainSpec r.st r.out rest

/-! Sample states and documents used by the concrete theorems below. -/

/-- A ready runtime with no magic request pending. -/
def idleState : MagmaState :=
  { state := .IDLE
    kernel_name := "python3"
    magic_execution_number := none
    waiting_for_magic := none
    magic_execution_callback := none
    external_kernel := true
    allocated_files := []
    show_mimetype_debug := false }

/-- A ready runtime whose magic request has already matched execution
count 9 (callback id 7 stored). -/
def pendingNumState : MagmaState :=
  { idleState with
      magic_execution_number := some 9
      magic_execution_callback := some 7 }

/-- A ready runtime whose pending magic code is the empty string
(reachable via `run_magic ""`), callback id 7 stored. -/
def emptyPendingState : MagmaState :=
  { idleState with
      waiting_for_magic := some ""
      magic_execution_callback := some 7 }

/-- A freshly created document for one execution. -/
def freshOut : Output :=
  { execution_count := none
    status := .HOLD
    success := true
    chunks := []
    _should_clear := false }

/-- A document already holding one text chunk. -/
def chunkOut : Output :=
  { freshOut with chunks := [.TextOutputChunk "a"] }

/-- A document holding one text chunk with a deferred clear pending. -/
def pendingClearOut : Output :=
  { freshOut with chunks := [.TextOutputChunk "a"], _should_clear := true }

/-- A document whose execution already completed. -/
def doneOut : Output :=
  { freshOut with execution_count := some 1, status := .DONE }

/-- The constructor run for a bare kernel name (an engine-spawned kernel). -/
def sampleSpawned : InitResult := JupyterRuntime.init "python3" false

/-! Helper lemmas shared by several claims. -/

/-- The chunks after one `tickCase` dispatch are the incoming chunks
(emptied by an immediate clear-request) followed by exactly the chunks the
message itself appends. -/
theorem tickCase_chunks (st : MagmaState) (out : Output) (msg : Message)
    (r : TickOneResult) (h : tickCase st out msg = .ok r) :
    r.out.chunks =
      (if msg = Message.clear_output false then [] else out.chunks)
        ++ chunksDelta st msg := by
  cases msg with
  | execute_input code ec =>
    simp only [tickCase] at h
    split at h
    · injection h with h; subst h; simp [chunksDelta]
    · split at h
      · split at h
        · cases h
        · injection h with h; subst h; simp [chunksDelta]
        · injection h with h; subst h; simp [chunksDelta]
      · injection h with h; subst h; simp [chunksDelta]
  | status es =>
    simp only [tickCase] at h
    split at h
    · cases h
    · split at h
      · injection h with h; subst h; simp [chunksDelta]
      · split at h
        · injection h with h; subst h; simp [chunksDelta]
        · injection h with h; subst h; simp [chunksDelta]
  | execute_reply =>
    simp only [tickCase] at h
    injection h with h; subst h; simp [chunksDelta]
  | execute_result data metadata =>
    simp only [tickCase] at h
    injection h with h; subst h; simp [chunksDelta]
  | error ename evalue traceback =>
    simp only [tickCase] at h
    injection h with h; subst h; simp [chunksDelta]
  | stream name text =>
    simp only [tickCase] at h
    split at h
    · injection h with h; subst h
      rename_i hc
      simp [chunksDelta, hc]
    · injection h with h; subst h
      rename_i hc
      simp [chunksDelta, hc]
  | display_data data metadata =>
    simp only [tickCase] at h
    injection h with h; subst h; simp [chunksDelta]
  | update_display_data =>
    simp only [tickCase] at h
    injection h with h; subst h; simp [chunksDelta]
  | clear_output wait =>
    simp only [tickCase] at h
    split at h
    · injection h with h; subst h
      rename_i hw
      simp [chunksDelta, hw]
    · injection h with h; subst h
      rename_i hw
      simp only [Bool.not_eq_true] at hw
      simp [chunksDelta, hw]
  | unknown t =>
    simp only [tickCase] at h
    injection h with h; subst h; simp [chunksDelta]

/-- Same as `tickCase_chunks`, but for `_tick_one`: a pending deferred
clear also empties the incoming chunks first. -/
theorem tick_one_chunks (st : MagmaState) (out : Output) (msg : Message)
    (r : TickOneResult) (h : _tick_one st out msg = .ok r) :
    r.out.chunks =
      (if out._should_clear = true ∨ msg = Message.clear_output false
        then [] else out.chunks)
        ++ chunksDelta st msg := by
  have h2 := tickCase_chunks st (applyClear out) msg r h
  by_cases hc : out._should_clear = true
  · simp only [applyClear, hc, if_true] at h2
    simpa [hc] using h2
  · simp only [applyClear, hc, if_false, Bool.not_eq_true] at h2
    simp only [eq_false_of_ne_true hc, false_or]
    simpa using h2

/-- Once the document is DONE, the spec drain loop dispatches nothing and
leaves the whole queue in place. -/
theorem drainSpec_done (st : MagmaState) (out : Output)
    (queue : List Message) (h : out.status = .DONE) :
    drainSpec st out queue = .ok (st, out, queue) := by
  cases queue with
  | nil => rfl
  | cons m rest => simp [drainSpec, h]

/-! Claim theorems. -/

/-- Claim C10: construction classifies the kernel argument as a connection
descriptor exactly when the string contains ".json" as a substring anywhere
(not only as a trailing extension); only a name with no ".json" substring
spawns a kernel and starts channels, while any name containing ".json" is
treated as a connection file and no kernel is spawned. The concrete conjuncts
exhibit a non-trailing ".json" occurrence being treated as a descriptor. -/
theorem init_classifies_by_json_substring :
    (∀ (name : String) (dbg : Bool),
      (JupyterRuntime.init name dbg).spawned_kernel
          = !(pyContains ".json" name)
        ∧ (JupyterRuntime.init name dbg).started_channels
          = !(pyContains ".json" name)
        ∧ (JupyterRuntime.init name dbg).loaded_connection_file
          = pyContains ".json" name)
    ∧ (JupyterRuntime.init "kernel.json.bak" false).loaded_connection_file
        = true
    ∧ (JupyterRuntime.init "kernel.json.bak" false).spawned_kernel = false := by
  refine ⟨fun name dbg => ?_, by decide, by decide⟩
  cases hc : pyContains ".json" name <;>
    simp [JupyterRuntime.init, hc]

/-- Claim C6: `tick` on an empty queue leaves every field of the document
unchanged and returns `false`, except that it returns `true` exactly when it
made the readiness transition from STARTING to IDLE (which still leaves the
document unchanged). -/
theorem tick_empty_queue_frame (st : MagmaState) (ready : ReadyCheck)
    (out : Output) :
    ∃ st1, tick st ready (some out) [] =
      .ok ⟨st1, some out,
        !(is_ready st) && decide (ready = ReadyCheck.succeeds), [], []⟩ := by
  cases hr : is_ready st <;> cases ready
  · exact ⟨{ st with state := RuntimeState.IDLE },
      by simp [tick, tickDrain, hr]⟩
  · exact ⟨st, by simp [tick, hr]⟩
  · exact ⟨st, by simp [tick, tickDrain, hr]⟩
  · exact ⟨st, by simp [tick, tickDrain, hr]⟩

/-- Claim C1 (code bug evaluation): the constructor marks even an
engine-spawned kernel (bare name, no ".json") as external
(`external_kernel = true`, runtime.py line 56), so dispatching an input-echo
with the document already DONE raises nothing and leaves status DONE, and an
input-echo at HOLD does not advance the status either — the monotonic-status
invariant of the claim is never enforced. -/
theorem spawned_kernel_no_status_enforcement :
    sampleSpawned.spawned_kernel = true
    ∧ sampleSpawned.st.external_kernel = true
    ∧ (_tick_one sampleSpawned.st doneOut (.execute_input "1+1" 5)
        = .ok ⟨sampleSpawned.st, { doneOut with execution_count := some 5 },
            true, []⟩)
    ∧ ({ doneOut with execution_count := some 5 } : Output).status
        = OutputStatus.DONE
    ∧ (_tick_one sampleSpawned.st freshOut (.execute_input "1+1" 5)
        = .ok ⟨sampleSpawned.st, { freshOut with execution_count := some 5 },
            true, []⟩)
    ∧ ({ freshOut with execution_count := some 5 } : Output).status
        = OutputStatus.HOLD := by
  exact ⟨rfl, rfl, rfl, rfl, rfl, rfl⟩

/-- Claim C9 (code bug evaluation): `deinit` on a runtime constructed from a
bare kernel name (a kernel this manager spawned) deletes the recorded
temporary paths that still exist, skips the missing ones, but does NOT shut
the kernel down, because the constructor set `external_kernel = true` in
both branches. -/
theorem deinit_spawned_kernel_not_shut_down :
    sampleSpawned.spawned_kernel = true
    ∧ deinit
        { sampleSpawned.st with
            allocated_files := ["/tmp/a.png", "/tmp/b.png"] }
        ["/tmp/a.png", "/tmp/other"]
      = (["/tmp/other"], false) := by
  exact ⟨rfl, by decide⟩

/-- Claim C3 (counterexample): with a pending magic request whose code is the
empty string (reachable via `run_magic ""`), a second `run_magic` is NOT a
no-op: Python string truthiness treats the pending-code marker `""` as
absent, so the new code is submitted to the kernel and the stored
code/callback pair is overwritten. -/
theorem run_magic_empty_pending_overwritten :
    emptyPendingState.waiting_for_magic = some ""
    ∧ (run_magic emptyPendingState "y" 9).2 = true
    ∧ (run_magic emptyPendingState "y" 9).1.waiting_for_magic = some "y"
    ∧ (run_magic emptyPendingState "y" 9).1.magic_execution_callback
        = some 9 := by
  exact ⟨rfl, by decide, by decide, by decide⟩

/-- Claim C3 (amended): `run_magic` is a no-op — state untouched, nothing
submitted to the kernel — whenever a request with a NON-EMPTY pending code,
or with a matched execution count, is pending. (A pending code equal to the
empty string is not recognized, by Python truthiness.) -/
theorem run_magic_pending_noop (st : MagmaState) (code : String)
    (cb : Nat)
    (h : pyTruthy st.waiting_for_magic = true
      ∨ st.magic_execution_number.isSome = true) :
    run_magic st code cb = (st, false) := by
  rcases h with h | h <;> simp [run_magic, h]

/-- Witness for `run_magic_pending_noop`, at a state whose magic request has
already matched execution count 9. -/
theorem run_magic_pending_noop_witness :
    run_magic pendingNumState "z" 11 = (pendingNumState, false) :=
  run_magic_pending_noop pendingNumState "z" 11 (Or.inr (by decide))

/-- Claim C5: within one `tick` call the drain loop dispatches queued
messages in channel-delivery order and stops as soon as the document
reaches DONE: it refines the spec-side loop `drainSpec` (which stops before
dispatching anything further once status is DONE), and the messages left
over are a suffix of the original queue. -/
theorem tick_drain_order_stops_at_done (st : MagmaState) (out : Output)
    (queue : List Message) (d : DrainResult)
    (h1 : out.status ≠ OutputStatus.DONE)
    (h2 : tickDrain st out queue = .ok d) :
    drainSpec st out queue = .ok (d.st, d.out, d.remaining)
    ∧ List.IsSuffix d.remaining queue := by
  induction queue generalizing st out d with
  | nil =>
    simp only [tickDrain] at h2
    injection h2 with h2; subst h2
    exact ⟨rfl, ⟨[], rfl⟩⟩
  | cons m rest ih =>
    simp only [tickDrain] at h2
    split at h2
    · cases h2
    · rename_i r hm
      split at h2
      · rename_i hd
        injection h2 with h2; subst h2
        refine ⟨?_, ⟨[m], rfl⟩⟩
        simp only [drainSpec, if_neg h1, hm]
        exact drainSpec_done r.st r.out rest hd
      · rename_i hd
        split at h2
        · cases h2
        · rename_i d2 hrec
          injection h2 with h2; subst h2
          obtain ⟨ihs, ihsuf⟩ := ih r.st r.out d2 hd hrec
          refine ⟨?_, ihsuf.trans ⟨[m], rfl⟩⟩
          simp only [drainSpec, if_neg h1, hm]
          exact ihs

/-- Witness for `tick_drain_order_stops_at_done`: a status-idle message
followed by a stream message; the drain stops right after DONE is reached
and the stream message stays queued. -/
theorem tick_drain_order_stops_at_done_witness :
    drainSpec idleState freshOut
        [Message.status "idle", Message.stream "stdout" "x"]
      = .ok (idleState, { freshOut with status := OutputStatus.DONE },
          [Message.stream "stdout" "x"])
    ∧ List.IsSuffix [Message.stream "stdout" "x"]
        [Message.status "idle", Message.stream "stdout" "x"] :=
  tick_drain_order_stops_at_done idleState freshOut
    [Message.status "idle", Message.stream "stdout" "x"]
    ⟨idleState, { freshOut with status := OutputStatus.DONE }, true, [],
      [Message.stream "stdout" "x"]⟩ (by decide) rfl

/-- Claim C8: dispatching an error message appends exactly one Error chunk
carrying the name, value and traceback of the message unmodified, sets
`success = false`, and does not abort the drain: the following status-idle
message is still dispatched and completes the document (DONE). -/
theorem error_message_records_and_continues (st : MagmaState) (out : Output)
    (ename evalue : String) (traceback : List String)
    (h1 : out._should_clear = false)
    (h2 : out.status ≠ OutputStatus.DONE) :
    tickDrain st out [Message.error ename evalue traceback,
        Message.status "idle"]
      = .ok ⟨{ st with state := RuntimeState.IDLE },
          { out with
              chunks := out.chunks
                ++ [OutputChunk.ErrorOutputChunk ename evalue traceback]
              success := false
              status := OutputStatus.DONE },
          true, [], []⟩ := by
  have hidle : (("idle" : String) = "starting") = False :=
    eq_false (by decide)
  simp [tickDrain, _tick_one, applyClear, tickCase, h1, h2, hidle]

/-- Witness for `error_message_records_and_continues`, at a fresh document. -/
theorem error_message_records_and_continues_witness :
    tickDrain idleState freshOut
        [Message.error "ZeroDivisionError" "division by zero"
            ["line1", "line2"],
          Message.status "idle"]
      = .ok ⟨idleState,
          { freshOut with
              chunks := [OutputChunk.ErrorOutputChunk "ZeroDivisionError"
                "division by zero" ["line1", "line2"]]
              success := false
              status := OutputStatus.DONE },
          true, [], []⟩ :=
  error_message_records_and_continues idleState freshOut "ZeroDivisionError"
    "division by zero" ["line1", "line2"] rfl (by decide)

/-- Claim C7 (counterexample): with a deferred clear pending, dispatching an
error message leaves the document with chunks that are neither an extension
of the previous chunks nor empty — the previous chunk is gone and one new
chunk is present. -/
theorem chunks_replaced_after_deferred_clear :
    (Except.map (fun r => r.out.chunks)
        (_tick_one idleState pendingClearOut (Message.error "E" "v" ["t"]))
      = .ok [OutputChunk.ErrorOutputChunk "E" "v" ["t"]])
    ∧ List.isPrefixOf pendingClearOut.chunks
        [OutputChunk.ErrorOutputChunk "E" "v" ["t"]] = false
    ∧ [OutputChunk.ErrorOutputChunk "E" "v" ["t"]]
        ≠ ([] : List OutputChunk) :=
  ⟨rfl, by decide, by decide⟩

/-- Claim C7 (amended): after each dispatch, the chunks of the document are
either the previous chunks with the own appended chunks of the message
(`chunksDelta`) at the end, or — when the dispatch performed a clear (an
immediate clear-request, or a previously deferred clear firing) — exactly
the chunks that dispatch itself produced; no chunk is modified in place or
removed individually. -/
theorem chunks_grow_or_rebuilt (st : MagmaState) (out : Output)
    (msg : Message) (r : TickOneResult)
    (h : _tick_one st out msg = .ok r) :
    r.out.chunks = out.chunks ++ chunksDelta st msg
    ∨ ((out._should_clear = true ∨ msg = Message.clear_output false)
        ∧ r.out.chunks = chunksDelta st msg) := by
  have hc := tick_one_chunks st out msg r h
  by_cases hcl : out._should_clear = true ∨ msg = Message.clear_output false
  · right
    refine ⟨hcl, ?_⟩
    rw [if_pos hcl] at hc
    simpa using hc
  · left
    rw [if_neg hcl] at hc
    exact hc

/-- Witness for `chunks_grow_or_rebuilt`: a stderr stream message appends
its text chunk to the existing chunks. -/
theorem chunks_grow_or_rebuilt_witness :
    (_tick_one idleState chunkOut (Message.stream "stderr" "oops")
      = .ok ⟨idleState,
          { chunkOut with chunks := [OutputChunk.TextOutputChunk "a",
              OutputChunk.TextOutputChunk "oops"] },
          true, []⟩)
    ∧ ([OutputChunk.TextOutputChunk "a", OutputChunk.TextOutputChunk "oops"]
        = chunkOut.chunks
            ++ chunksDelta idleState (Message.stream "stderr" "oops")
      ∨ ((chunkOut._should_clear = true
            ∨ Message.stream "stderr" "oops" = Message.clear_output false)
          ∧ [OutputChunk.TextOutputChunk "a",
              OutputChunk.TextOutputChunk "oops"]
            = chunksDelta idleState (Message.stream "stderr" "oops"))) := by
  refine ⟨rfl, ?_⟩
  exact chunks_grow_or_rebuilt idleState chunkOut
    (Message.stream "stderr" "oops")
    ⟨idleState,
      { chunkOut with chunks := [OutputChunk.TextOutputChunk "a",
          OutputChunk.TextOutputChunk "oops"] },
      true, []⟩ rfl

/-- Claim C4 (counterexample): after a deferred clear-request (`wait=true`),
the chunks are emptied by the very next dispatched message even when that
message is `update_display_data` — a kind the engine ignores (its own effect
is a no-op and it reports no progress), not a content-bearing message. -/
theorem deferred_clear_fires_on_ignored_kind :
    (_tick_one idleState chunkOut (Message.clear_output true)
      = .ok ⟨idleState, { chunkOut with _should_clear := true }, true, []⟩)
    ∧ ({ chunkOut with _should_clear := true } : Output).chunks
        = [OutputChunk.TextOutputChunk "a"]
    ∧ (_tick_one idleState { chunkOut with _should_clear := true }
          Message.update_display_data
        = .ok ⟨idleState,
            { chunkOut with chunks := [], _should_clear := false },
            false, []⟩)
    ∧ ({ chunkOut with
          chunks := ([] : List OutputChunk)
          _should_clear := false }).chunks = [] :=
  ⟨rfl, rfl, rfl, rfl⟩

/-- Claim C4 (amended): `clear-request` with `wait=false` empties the chunks
synchronously; with `wait=true` it only sets the deferred-clear flag and
leaves the chunks; a pending deferred clear then fires at the NEXT
dispatched message of any kind — before the case logic of that message — leaving
exactly the chunks that message itself appends. -/
theorem clear_request_semantics (st : MagmaState) (out : Output)
    (msg : Message) :
    (∀ r, _tick_one st out (Message.clear_output false) = .ok r →
      r.out.chunks = [])
    ∧ (out._should_clear = false →
        ∀ r, _tick_one st out (Message.clear_output true) = .ok r →
          r.out.chunks = out.chunks ∧ r.out._should_clear = true)
    ∧ (out._should_clear = true →
        ∀ r, _tick_one st out msg = .ok r →
          r.out.chunks = chunksDelta st msg) := by
  refine ⟨?_, ?_, ?_⟩
  · intro r h
    have hc := tick_one_chunks st out (Message.clear_output false) r h
    simpa using hc
  · intro h1 r h
    constructor
    · have hc := tick_one_chunks st out (Message.clear_output true) r h
      simpa [h1, chunksDelta] using hc
    · simp only [_tick_one, applyClear, h1, if_false, Bool.false_eq_true,
        tickCase, if_true, Except.ok.injEq] at h
      rw [← h]
  · intro h1 r h
    have hc := tick_one_chunks st out msg r h
    simpa [h1] using hc

/-- Witness for `clear_request_semantics`: an immediate clear empties a
document holding one chunk. -/
theorem clear_request_semantics_witness :
    (_tick_one idleState chunkOut (Message.clear_output false)
      = .ok ⟨idleState, { chunkOut with chunks := [] }, true, []⟩)
    ∧ ({ chunkOut with chunks := ([] : List OutputChunk) }).chunks = [] :=
  ⟨rfl, (clear_request_semantics idleState chunkOut
    Message.update_display_data).1 _ rfl⟩

/-- Claim C2 (counterexample): in the §8 magic scenario the callback is
invoked with the content record of the stream message (a dict with `name` and
`text` entries), not with the bare text payload string "x  int  1". -/
theorem magic_callback_receives_content_record :
    ((run_magic idleState "%whos" 3).1.waiting_for_magic = some "%whos")
    ∧ (_tick_one (run_magic idleState "%whos" 3).1 freshOut
          (Message.execute_input "%whos" 9)
        = .ok ⟨{ idleState with
                   magic_execution_number := some 9
                   magic_execution_callback := some 3 },
            freshOut, false, []⟩)
    ∧ (_tick_one
          { idleState with
              magic_execution_number := some 9
              magic_execution_callback := some 3 } freshOut
          (Message.stream "stdout" "x  int  1")
        = .ok ⟨idleState, freshOut, false,
            [(3, PyVal.strDict [("name", "stdout"),
                ("text", "x  int  1")])]⟩)
    ∧ PyVal.strDict [("name", "stdout"), ("text", "x  int  1")]
        ≠ PyVal.str "x  int  1" :=
  ⟨rfl, rfl, rfl, by decide⟩

/-- Claim C2 (amended): after `run_magic(code, cb)` with no request pending,
the echoing input message is absorbed (no document change, no progress) and
records the execution count; the following stdout stream message invokes the
callback exactly once, with the content record of the stream (whose `text` entry
is the payload), clears the whole magic-request state, and leaves the
document untouched. -/
theorem run_magic_scenario_resolves_once (st : MagmaState) (out : Output)
    (code text : String) (n : Int) (cb : Nat)
    (h1 : st.waiting_for_magic = none)
    (h2 : st.magic_execution_number = none)
    (h3 : out._should_clear = false) :
    (run_magic st code cb).2 = true
    ∧ _tick_one (run_magic st code cb).1 out (Message.execute_input code n)
        = .ok ⟨{ st with
                   magic_execution_number := some n
                   waiting_for_magic := none
                   magic_execution_callback := some cb },
            out, false, []⟩
    ∧ _tick_one
          { st with
              magic_execution_number := some n
              waiting_for_magic := none
              magic_execution_callback := some cb }
          out (Message.stream "stdout" text)
        = .ok ⟨{ st with
                   magic_execution_number := none
                   waiting_for_magic := none
                   magic_execution_callback := none },
            out, false, [(cb, streamContent "stdout" text)]⟩ := by
  have hg : (pyTruthy st.waiting_for_magic
      || st.magic_execution_number.isSome) = false := by
    rw [h1, h2]; rfl
  refine ⟨by simp [run_magic, hg], ?_, ?_⟩
  · have hrm : (run_magic st code cb).1
        = { st with
              magic_execution_number := none
              waiting_for_magic := some code
              magic_execution_callback := some cb } := by
      simp [run_magic, hg]
    rw [hrm]
    simp [_tick_one, applyClear, h3, tickCase]
  · simp [_tick_one, applyClear, h3, tickCase, streamContent]

/-- Witness for `run_magic_scenario_resolves_once`, at a ready runtime, a
document holding one chunk, magic code "%who_ls" and stream text "y str 2". -/
theorem run_magic_scenario_resolves_once_witness :
    (run_magic idleState "%who_ls" 5).2 = true
    ∧ _tick_one (run_magic idleState "%who_ls" 5).1 chunkOut
        (Message.execute_input "%who_ls" 12)
        = .ok ⟨{ idleState with
                   magic_execution_number := some 12
                   waiting_for_magic := none
                   magic_execution_callback := some 5 },
            chunkOut, false, []⟩
    ∧ _tick_one
          { idleState with
              magic_execution_number := some 12
              waiting_for_magic := none
              magic_execution_callback := some 5 }
          chunkOut (Message.stream "stdout" "y str 2")
        = .ok ⟨{ idleState with
                   magic_execution_number := none
                   waiting_for_magic := none
                   magic_execution_callback := none },
            chunkOut, false, [(5, streamContent "stdout" "y str 2")]⟩ :=
  run_magic_scenario_resolves_once idleState chunkOut "%who_ls" "y str 2"
    12 5 rfl rfl rfl

end Magma
